import Mathlib

/- Verification development for the webhook delivery subsystem of the
   yesod-auth repository: configuration loading (app/webhooks/config.py),
   the event model (app/webhooks/event.py), the payload signer
   (app/webhooks/signer.py), the emitter (app/webhooks/emitter.py) and the
   delivery worker (app/webhooks/worker.py), modelled as executable Lean
   definitions, with the specified properties proved or refuted below. -/

set_option maxHeartbeats 1000000
set_option linter.unusedVariables false

namespace WebhookSpec

/-- Little-endian base-b digit expansion of n with exactly w digits
(fixed width, like the zero-padded formats used by str(uuid) and
datetime.isoformat). -/
def digitsLE (b : Nat) : Nat → Nat → List Nat
  | 0, _ => []
  | w + 1, n => n % b :: digitsLE b w (n / b)

/-- Numeric value of a most-significant-digit-first list in base b
(what int(s, b) computes on the digit values). -/
def valMS (b : Nat) (ds : List Nat) : Nat := ds.foldl (fun a d => a * b + d) 0

theorem digitsLE_length (b w : Nat) : ∀ n, (digitsLE b w n).length = w := by
  induction w with
  | zero => intro n; rfl
  | succ w ih => intro n; simp [digitsLE, ih]

theorem digitsLE_lt (b : Nat) (hb : 0 < b) (w : Nat) :
    ∀ n, ∀ d ∈ digitsLE b w n, d < b := by
  induction w with
  | zero => intro n d hd; simp [digitsLE] at hd
  | succ w ih =>
    intro n d hd
    simp only [digitsLE, List.mem_cons] at hd
    rcases hd with h | h
    · exact h ▸ Nat.mod_lt _ hb
    · exact ih _ d h

theorem foldl_reverse_digitsLE (b : Nat) (w : Nat) :
    ∀ a n : Nat,
      ((digitsLE b w n).reverse).foldl (fun x d => x * b + d) a
        = a * b ^ w + n % b ^ w := by
  induction w with
  | zero => intro a n; simp [digitsLE, valMS, Nat.mod_one]
  | succ w ih =>
    intro a n
    have hsplit : n % (b * b ^ w) = n % b + b * (n / b % b ^ w) := Nat.mod_mul ..
    simp only [digitsLE, List.reverse_cons, List.foldl_append, ih, List.foldl_cons,
      List.foldl_nil]
    have hpow : b ^ (w + 1) = b * b ^ w := by ring
    rw [hpow, hsplit]
    ring

/-- Value of a fixed-width expansion: reading the zero-padded digits back
recovers the number modulo the width bound. -/
theorem valMS_digitsLE (b w n : Nat) :
    valMS b ((digitsLE b w n).reverse) = n % b ^ w := by
  have := foldl_reverse_digitsLE b w 0 n
  simpa [valMS] using this

theorem foldl_base_acc (b : Nat) :
    ∀ (ds : List Nat) (a : Nat),
      ds.foldl (fun x d => x * b + d) a = a * b ^ ds.length + valMS b ds := by
  intro ds
  induction ds with
  | nil => intro a; simp [valMS]
  | cons d ds ih =>
    intro a
    simp only [List.foldl_cons, List.length_cons, valMS] at *
    rw [ih (a * b + d), ih (0 * b + d)]
    ring

theorem valMS_lt (b : Nat) (hb : 0 < b) :
    ∀ ds : List Nat, (∀ d ∈ ds, d < b) → valMS b ds < b ^ ds.length := by
  intro ds
  induction ds with
  | nil => intro _; simp [valMS]
  | cons d ds ih =>
    intro h
    have hd : d < b := h d (by simp)
    have hds : ∀ x ∈ ds, x < b := fun x hx => h x (by simp [hx])
    have htail := ih hds
    simp only [valMS, List.foldl_cons, List.length_cons]
    rw [foldl_base_acc b ds (0 * b + d)]
    have h1 : (0 * b + d) * b ^ ds.length + valMS b ds
        < (0 * b + d) * b ^ ds.length + b ^ ds.length := by omega
    calc (0 * b + d) * b ^ ds.length + valMS b ds
        < (d + 1) * b ^ ds.length := by simpa [Nat.add_mul] using h1
      _ ≤ b * b ^ ds.length := by
          exact Nat.mul_le_mul_right _ (by omega)
      _ = b ^ (ds.length + 1) := by ring

theorem valMS_cons (b d : Nat) (ds : List Nat) :
    valMS b (d :: ds) = d * b ^ ds.length + valMS b ds := by
  simp only [valMS, List.foldl_cons]
  rw [foldl_base_acc b ds (0 * b + d)]
  simp only [valMS]
  ring

/-- Base-b values of equal-length bounded digit lists are injective:
fixed-width positional encoding is unique. -/
theorem valMS_inj (b : Nat) (hb : 0 < b) :
    ∀ (ds1 ds2 : List Nat), ds1.length = ds2.length →
      (∀ d ∈ ds1, d < b) → (∀ d ∈ ds2, d < b) →
      valMS b ds1 = valMS b ds2 → ds1 = ds2 := by
  intro ds1
  induction ds1 with
  | nil =>
    intro ds2 hlen _ _ _
    exact (List.length_eq_zero.mp hlen.symm).symm
  | cons d1 t1 ih =>
    intro ds2 hlen h1 h2 hval
    cases ds2 with
    | nil => simp at hlen
    | cons d2 t2 =>
      simp only [List.length_cons, Nat.succ.injEq] at hlen
      have hd1 : d1 < b := h1 d1 (by simp)
      have hd2 : d2 < b := h2 d2 (by simp)
      have ht1 : ∀ d ∈ t1, d < b := fun d hd => h1 d (by simp [hd])
      have ht2 : ∀ d ∈ t2, d < b := fun d hd => h2 d (by simp [hd])
      have hv1 : valMS b (d1 :: t1) = d1 * b ^ t1.length + valMS b t1 := valMS_cons ..
      have hv2 : valMS b (d2 :: t2) = d2 * b ^ t2.length + valMS b t2 := valMS_cons ..
      have hb1 := valMS_lt b hb t1 ht1
      have hb2 := valMS_lt b hb t2 ht2
      rw [hv1, hv2, hlen] at hval
      have hdeq : d1 = d2 := by
        by_contra hne
        rcases Nat.lt_or_ge d1 d2 with hlt | hge
        · have : d1 * b ^ t2.length + valMS b t1 < d2 * b ^ t2.length := by
            calc d1 * b ^ t2.length + valMS b t1
                < d1 * b ^ t2.length + b ^ t2.length := by
                  have := hlen ▸ hb1; omega
              _ = (d1 + 1) * b ^ t2.length := by ring
              _ ≤ d2 * b ^ t2.length := Nat.mul_le_mul_right _ (by omega)
          omega
        · have hlt2 : d2 < d1 := by omega
          have : d2 * b ^ t2.length + valMS b t2 < d1 * b ^ t2.length := by
            calc d2 * b ^ t2.length + valMS b t2
                < d2 * b ^ t2.length + b ^ t2.length := by omega
              _ = (d2 + 1) * b ^ t2.length := by ring
              _ ≤ d1 * b ^ t2.length := Nat.mul_le_mul_right _ (by omega)
          omega
      subst hdeq
      have hteq : t1 = t2 := by
        apply ih t2 hlen ht1 ht2
        omega
      rw [hteq]

/-- Lowercase hexadecimal digit character for a value below 16, as produced
by Python's percent-x formatting inside str(uuid.UUID). -/
def hexDigitChar (d : Nat) : Char :=
  match d with
  | 0 => '0' | 1 => '1' | 2 => '2' | 3 => '3' | 4 => '4'
  | 5 => '5' | 6 => '6' | 7 => '7' | 8 => '8' | 9 => '9'
  | 10 => 'a' | 11 => 'b' | 12 => 'c' | 13 => 'd' | 14 => 'e' | 15 => 'f'
  | _ => '0'

/-- Value of a hexadecimal digit character, upper or lower case, as accepted
by Python's int(s, 16); 0 for anything else. -/
def hexDigitVal (c : Char) : Nat :=
  match c with
  | '0' => 0 | '1' => 1 | '2' => 2 | '3' => 3 | '4' => 4
  | '5' => 5 | '6' => 6 | '7' => 7 | '8' => 8 | '9' => 9
  | 'a' => 10 | 'b' => 11 | 'c' => 12 | 'd' => 13 | 'e' => 14 | 'f' => 15
  | 'A' => 10 | 'B' => 11 | 'C' => 12 | 'D' => 13 | 'E' => 14 | 'F' => 15
  | _ => 0

/-- Whether a character is a hexadecimal digit int(s, 16) accepts. -/
def isHexDigit (c : Char) : Bool :=
  ('0' ≤ c ∧ c ≤ '9') ∨ ('a' ≤ c ∧ c ≤ 'f') ∨ ('A' ≤ c ∧ c ≤ 'F')

theorem hexDigitVal_hexDigitChar : ∀ d : Fin 16, hexDigitVal (hexDigitChar d) = d := by
  decide

theorem hexDigitChar_isHexDigit : ∀ d : Fin 16, isHexDigit (hexDigitChar d) = true := by
  decide

theorem hexDigitChar_ne_dash : ∀ d : Fin 16, hexDigitChar d ≠ '-' := by
  decide

/-- Fixed-width lowercase hex rendering of a natural number (Python
percent-0wx formatting). -/
def natToHexChars (w n : Nat) : List Char :=
  ((digitsLE 16 w n).reverse).map hexDigitChar

theorem natToHexChars_length (w n : Nat) : (natToHexChars w n).length = w := by
  simp [natToHexChars, digitsLE_length]

/-- MODEL OF uuid.UUID.__str__: the 128-bit integer as 32 lowercase hex
digits grouped 8-4-4-4-12 with dashes. -/
def uuidStr (n : Nat) : String :=
  let cs := natToHexChars 32 n
  String.mk (cs.take 8 ++ '-' ::
    ((cs.drop 8).take 4 ++ '-' ::
      ((cs.drop 12).take 4 ++ '-' ::
        ((cs.drop 16).take 4 ++ '-' :: cs.drop 20))))

/-- MODEL OF uuid.UUID(hex=s) on plain hyphenated strings: Python removes
the dashes, requires exactly 32 hex digits, and reads the integer with
int(s, 16) (the urn:, uuid: and brace stripping never fires on the strings
this code produces, so it is not modelled). Failure (ValueError) is none. -/
def uuidFromStr (s : String) : Option Nat :=
  let cs := s.data.filter (fun c => c ≠ '-')
  if cs.length = 32 ∧ cs.all isHexDigit then
    some (valMS 16 (cs.map hexDigitVal))
  else
    none

theorem dashGroups_reassemble (l : List Char) :
    l.take 8 ++ ((l.drop 8).take 4 ++ ((l.drop 12).take 4 ++
      ((l.drop 16).take 4 ++ l.drop 20))) = l := by
  have e16 : (l.drop 16).take 4 ++ l.drop 20 = l.drop 16 := by
    have h := List.take_append_drop 4 (l.drop 16)
    rwa [List.drop_drop] at h
  have e12 : (l.drop 12).take 4 ++ l.drop 16 = l.drop 12 := by
    have h := List.take_append_drop 4 (l.drop 12)
    rwa [List.drop_drop] at h
  have e8 : (l.drop 8).take 4 ++ l.drop 12 = l.drop 8 := by
    have h := List.take_append_drop 4 (l.drop 8)
    rwa [List.drop_drop] at h
  rw [e16, e12, e8, List.take_append_drop]

/-- Round trip of the UUID string form: parsing the hyphenated lowercase
hex rendering of any 128-bit value recovers the value, the property
event.py relies on for event_id. -/
theorem uuidFromStr_uuidStr (n : Nat) (h : n < 2 ^ 128) :
    uuidFromStr (uuidStr n) = some n := by
  have hdig : ∀ d ∈ digitsLE 16 32 n, d < 16 := digitsLE_lt 16 (by norm_num) 32 n
  have hmemH : ∀ c ∈ natToHexChars 32 n, isHexDigit c = true ∧ c ≠ '-' := by
    intro c hc
    simp only [natToHexChars, List.mem_map, List.mem_reverse] at hc
    obtain ⟨d, hd, rfl⟩ := hc
    have hdlt : d < 16 := hdig d hd
    exact ⟨hexDigitChar_isHexDigit ⟨d, hdlt⟩, hexDigitChar_ne_dash ⟨d, hdlt⟩⟩
  have hfilter : ∀ (l : List Char), (∀ c ∈ l, c ≠ '-') →
      l.filter (fun c => !decide (c = '-')) = l := by
    intro l hl
    apply List.filter_eq_self.mpr
    intro a ha
    simpa using hl a ha
  have hH := natToHexChars_length 32 n
  -- the dash filter recovers exactly the 32 hex characters
  have hcs : (uuidStr n).data.filter (fun c => decide (c ≠ '-'))
      = natToHexChars 32 n := by
    show ((natToHexChars 32 n).take 8 ++ '-' ::
        (((natToHexChars 32 n).drop 8).take 4 ++ '-' ::
          (((natToHexChars 32 n).drop 12).take 4 ++ '-' ::
            (((natToHexChars 32 n).drop 16).take 4 ++ '-' ::
              (natToHexChars 32 n).drop 20)))).filter (fun c => decide (c ≠ '-'))
        = natToHexChars 32 n
    rw [List.filter_append, List.filter_cons, List.filter_append, List.filter_cons,
      List.filter_append, List.filter_cons, List.filter_append, List.filter_cons]
    simp only [decide_not, decide_True, Bool.not_true, Bool.false_eq_true, if_false,
      if_neg]
    rw [hfilter _ (fun c hc => (hmemH c (List.mem_of_mem_take hc)).2),
      hfilter _ (fun c hc => (hmemH c (List.mem_of_mem_drop (List.mem_of_mem_take hc))).2),
      hfilter _ (fun c hc => (hmemH c (List.mem_of_mem_drop (List.mem_of_mem_take hc))).2),
      hfilter _ (fun c hc => (hmemH c (List.mem_of_mem_drop (List.mem_of_mem_take hc))).2),
      hfilter _ (fun c hc => (hmemH c (List.mem_of_mem_drop hc)).2)]
    exact dashGroups_reassemble _
  have hval : ((natToHexChars 32 n).map hexDigitVal) = (digitsLE 16 32 n).reverse := by
    simp only [natToHexChars, List.map_map]
    have : ∀ d ∈ (digitsLE 16 32 n).reverse, (hexDigitVal ∘ hexDigitChar) d = id d := by
      intro d hd
      have hdlt : d < 16 := hdig d (List.mem_reverse.mp hd)
      simpa using hexDigitVal_hexDigitChar ⟨d, hdlt⟩
    rw [List.map_congr_left this, List.map_id]
  have hall : ((natToHexChars 32 n).all isHexDigit) = true := by
    rw [List.all_eq_true]
    exact fun c hc => (hmemH c hc).1
  rw [uuidFromStr]
  simp only [hcs]
  rw [if_pos ⟨hH, hall⟩, hval, valMS_digitsLE]
  congr 1
  have : (16 : Nat) ^ 32 = 2 ^ 128 := by norm_num
  rw [this]
  exact Nat.mod_eq_of_lt h

/-- MODEL OF a timezone-aware Python datetime in UTC, the form
datetime.now(UTC) produces for WebhookEvent.timestamp. -/
structure PyDateTime where
  year : Nat
  month : Nat
  day : Nat
  hour : Nat
  minute : Nat
  second : Nat
  microsecond : Nat
deriving DecidableEq, Repr

/-- Field ranges a real datetime satisfies (datetime.MINYEAR to MAXYEAR,
calendar bounds, microsecond below one million). -/
def PyDateTime.valid (t : PyDateTime) : Prop :=
  1 ≤ t.year ∧ t.year ≤ 9999 ∧ 1 ≤ t.month ∧ t.month ≤ 12 ∧
    1 ≤ t.day ∧ t.day ≤ 31 ∧ t.hour ≤ 23 ∧ t.minute ≤ 59 ∧
    t.second ≤ 59 ∧ t.microsecond ≤ 999999

instance (t : PyDateTime) : Decidable t.valid := by
  unfold PyDateTime.valid; infer_instance

/-- Decimal digit character of a value below 10. -/
def decDigitChar (d : Nat) : Char :=
  match d with
  | 0 => '0' | 1 => '1' | 2 => '2' | 3 => '3' | 4 => '4'
  | 5 => '5' | 6 => '6' | 7 => '7' | 8 => '8' | 9 => '9'
  | _ => '0'

/-- Value of a decimal digit character; 0 for anything else. -/
def decDigitVal (c : Char) : Nat :=
  match c with
  | '0' => 0 | '1' => 1 | '2' => 2 | '3' => 3 | '4' => 4
  | '5' => 5 | '6' => 6 | '7' => 7 | '8' => 8 | '9' => 9
  | _ => 0

theorem decDigitVal_decDigitChar : ∀ d : Fin 10, decDigitVal (decDigitChar d) = d := by
  decide

theorem decDigitChar_isDigit : ∀ d : Fin 10, (decDigitChar d).isDigit = true := by
  decide

/-- Zero-padded fixed-width decimal rendering (Python percent-0wd). -/
def padNum (w n : Nat) : List Char :=
  ((digitsLE 10 w n).reverse).map decDigitChar

theorem padNum_length (w n : Nat) : (padNum w n).length = w := by
  simp [padNum, digitsLE_length]

theorem padNum_all_digits (w n : Nat) : ∀ c ∈ padNum w n, c.isDigit = true := by
  intro c hc
  simp only [padNum, List.mem_map, List.mem_reverse] at hc
  obtain ⟨d, hd, rfl⟩ := hc
  have hdlt : d < 10 := digitsLE_lt 10 (by norm_num) w n d hd
  exact decDigitChar_isDigit ⟨d, hdlt⟩

/-- MODEL OF datetime.isoformat() on an aware UTC datetime: date, T,
time, fractional part only when microsecond is nonzero, then the +00:00
offset. The nesting mirrors how the string is consumed left to right. -/
def isoformat (t : PyDateTime) : String :=
  String.mk (padNum 4 t.year ++ '-' ::
    (padNum 2 t.month ++ '-' ::
      (padNum 2 t.day ++ 'T' ::
        (padNum 2 t.hour ++ ':' ::
          (padNum 2 t.minute ++ ':' ::
            (padNum 2 t.second ++
              ((if t.microsecond = 0 then [] else '.' :: padNum 6 t.microsecond) ++
                ('+' :: '0' :: '0' :: ':' :: '0' :: '0' :: []))))))))

/-- Read exactly w decimal digits off the front of a character list,
returning their value and the rest; none when the shape is wrong. -/
def readFixed (w : Nat) (cs : List Char) : Option (Nat × List Char) :=
  let pre := cs.take w
  if pre.length = w ∧ pre.all Char.isDigit then
    some (valMS 10 (pre.map decDigitVal), cs.drop w)
  else
    none

/-- Read an optional fractional-seconds part: a dot followed by exactly
six digits (the shape isoformat emits), or nothing. -/
def readFrac (cs : List Char) : Option (Nat × List Char) :=
  match cs with
  | [] => some (0, [])
  | c :: rest => if c = '.' then readFixed 6 rest else some (0, c :: rest)

/-- Expect one specific character off the front. -/
def expectChar (c : Char) : List Char → Option (List Char)
  | [] => none
  | x :: xs => if x = c then some xs else none

/-- MODEL OF datetime.fromisoformat on the strings isoformat emits:
fixed-width date and time fields, optional six-digit fraction, and the
literal +00:00 UTC offset. Parse failure (ValueError) is none. -/
def fromisoformat (s : String) : Option PyDateTime := do
  let cs := s.data
  let (y, cs) ← readFixed 4 cs
  let cs ← expectChar '-' cs
  let (mo, cs) ← readFixed 2 cs
  let cs ← expectChar '-' cs
  let (d, cs) ← readFixed 2 cs
  let cs ← expectChar 'T' cs
  let (hh, cs) ← readFixed 2 cs
  let cs ← expectChar ':' cs
  let (mi, cs) ← readFixed 2 cs
  let cs ← expectChar ':' cs
  let (ss, cs) ← readFixed 2 cs
  let (us, cs) ← readFrac cs
  if cs = ['+', '0', '0', ':', '0', '0'] then
    some ⟨y, mo, d, hh, mi, ss, us⟩
  else
    none

/-- Reading a zero-padded field off the front of a longer list yields the
field value and the remainder. -/
theorem readFixed_padNum (w n : Nat) (hn : n < 10 ^ w) (rest : List Char) :
    readFixed w (padNum w n ++ rest) = some (n, rest) := by
  have hlen : (padNum w n).length = w := padNum_length w n
  have htake : (padNum w n ++ rest).take w = padNum w n := by
    have h := List.take_left (padNum w n) rest
    rwa [hlen] at h
  have hdrop : (padNum w n ++ rest).drop w = rest := by
    have h := List.drop_left (padNum w n) rest
    rwa [hlen] at h
  rw [readFixed]
  simp only [htake, hdrop]
  rw [if_pos]
  · congr 1
    congr 1
    have hmap : (padNum w n).map decDigitVal = (digitsLE 10 w n).reverse := by
      simp only [padNum, List.map_map]
      have : ∀ d ∈ (digitsLE 10 w n).reverse,
          (decDigitVal ∘ decDigitChar) d = id d := by
        intro d hd
        have hdlt : d < 10 := digitsLE_lt 10 (by norm_num) w n d (List.mem_reverse.mp hd)
        simpa using decDigitVal_decDigitChar ⟨d, hdlt⟩
      rw [List.map_congr_left this, List.map_id]
    rw [hmap, valMS_digitsLE, Nat.mod_eq_of_lt hn]
  · refine ⟨hlen, ?_⟩
    rw [List.all_eq_true]
    exact fun c hc => padNum_all_digits w n c hc

theorem expectChar_cons (c : Char) (rest : List Char) :
    expectChar c (c :: rest) = some rest := by
  simp [expectChar]

/-- Round trip of the ISO-8601 rendering: parsing isoformat output of any
valid aware-UTC datetime recovers every field, the property event.py
relies on for timestamp. -/
theorem fromisoformat_isoformat (t : PyDateTime) (h : t.valid) :
    fromisoformat (isoformat t) = some t := by
  obtain ⟨h1, h2, h3, h4, h5, h6, h7, h8, h9, h10⟩ := h
  have e4 : (10 : Nat) ^ 4 = 10000 := by norm_num
  have e2 : (10 : Nat) ^ 2 = 100 := by norm_num
  have e6 : (10 : Nat) ^ 6 = 1000000 := by norm_num
  have hy : t.year < 10 ^ 4 := by omega
  have hmo : t.month < 10 ^ 2 := by omega
  have hd : t.day < 10 ^ 2 := by omega
  have hh : t.hour < 10 ^ 2 := by omega
  have hmi : t.minute < 10 ^ 2 := by omega
  have hs : t.second < 10 ^ 2 := by omega
  have hus : t.microsecond < 10 ^ 6 := by omega
  have hdata : ∀ l : List Char, (String.mk l).data = l := fun l => rfl
  rcases Nat.eq_zero_or_pos t.microsecond with hzero | hpos
  · simp only [fromisoformat, isoformat, hdata, hzero, reduceIte, List.nil_append,
      readFixed_padNum 4 t.year hy, readFixed_padNum 2 t.month hmo,
      readFixed_padNum 2 t.day hd, readFixed_padNum 2 t.hour hh,
      readFixed_padNum 2 t.minute hmi, readFixed_padNum 2 t.second hs,
      expectChar_cons, Option.bind_eq_bind, Option.some_bind]
    simp [readFrac, hzero]
    rw [← hzero]
  · have hne : t.microsecond ≠ 0 := by omega
    simp only [fromisoformat, isoformat, hdata, if_neg hne, List.cons_append,
      readFixed_padNum 4 t.year hy, readFixed_padNum 2 t.month hmo,
      readFixed_padNum 2 t.day hd, readFixed_padNum 2 t.hour hh,
      readFixed_padNum 2 t.minute hmi, readFixed_padNum 2 t.second hs,
      expectChar_cons, Option.bind_eq_bind, Option.some_bind]
    simp [readFrac, readFixed_padNum 6 t.microsecond hus]

/-- MODEL OF the JSON-serializable event data mapping. The webhook core
never inspects its structure, only passes it through, so a schema-less
JSON value suffices. -/
inductive JsonVal where
  | nullV : JsonVal
  | boolV (b : Bool) : JsonVal
  | numV (n : Int) : JsonVal
  | strV (s : String) : JsonVal
  | arrV (xs : List JsonVal) : JsonVal
  | objV (fields : List (String × JsonVal)) : JsonVal

/-- WebhookEvent (event.py): event_type and data as constructed, event_id
a 128-bit UUID value, timestamp an aware UTC datetime. -/
structure WebhookEvent where
  event_type : String
  data : JsonVal
  event_id : Nat
  timestamp : PyDateTime

/-- The payload dict WebhookEvent.to_payload builds: event_id and
timestamp stringified, event_type and data passed through. -/
structure EventPayload where
  event_id : String
  event_type : String
  timestamp : String
  data : JsonVal

/-- WebhookEvent.to_payload (event.py lines 20-28). -/
def WebhookEvent.toPayload (e : WebhookEvent) : EventPayload :=
  { event_id := uuidStr e.event_id
    event_type := e.event_type
    timestamp := isoformat e.timestamp
    data := e.data }

/-- WebhookEvent.from_payload (event.py lines 30-37): uuid.UUID and
datetime.fromisoformat re-parse the stringified fields; a ValueError from
either is none. -/
def WebhookEvent.fromPayload (p : EventPayload) : Option WebhookEvent :=
  match uuidFromStr p.event_id, fromisoformat p.timestamp with
  | some u, some ts =>
      some { event_type := p.event_type, data := p.data, event_id := u, timestamp := ts }
  | _, _ => none

/-- C5: for every valid (event_type, data), constructing a WebhookEvent e
and applying from_payload(to_payload(e)) yields an event equal to e on
every field: event_id, event_type, timestamp, and data. -/
theorem c5_event_payload_roundtrip (e : WebhookEvent) (hid : e.event_id < 2 ^ 128)
    (hts : e.timestamp.valid) :
    WebhookEvent.fromPayload (WebhookEvent.toPayload e) = some e := by
  rw [WebhookEvent.fromPayload, WebhookEvent.toPayload]
  simp only [uuidFromStr_uuidStr e.event_id hid, fromisoformat_isoformat e.timestamp hts]

theorem c5_event_payload_roundtrip_witness :
    (5 : Nat) < 2 ^ 128 ∧
      (PyDateTime.mk 2024 5 17 12 30 45 123456).valid ∧
      WebhookEvent.fromPayload
          (WebhookEvent.toPayload
            ⟨"user.created", JsonVal.objV [("user_id", JsonVal.strV "abc")], 5,
              ⟨2024, 5, 17, 12, 30, 45, 123456⟩⟩)
        = some ⟨"user.created", JsonVal.objV [("user_id", JsonVal.strV "abc")], 5,
            ⟨2024, 5, 17, 12, 30, 45, 123456⟩⟩ :=
  ⟨by norm_num, by decide,
    c5_event_payload_roundtrip
      ⟨"user.created", JsonVal.objV [("user_id", JsonVal.strV "abc")], 5,
        ⟨2024, 5, 17, 12, 30, 45, 123456⟩⟩
      (by norm_num) (by decide)⟩

namespace Sha256

/-- Addition modulo 2^32. -/
def add32 (a b : Nat) : Nat := (a + b) % 2 ^ 32

/-- Right rotation of a 32-bit word. -/
def rotr (k x : Nat) : Nat := ((x >>> k) ||| (x <<< (32 - k))) % 2 ^ 32

def ch (x y z : Nat) : Nat := (x &&& y) ^^^ ((x ^^^ (2 ^ 32 - 1)) &&& z)

def maj (x y z : Nat) : Nat := (x &&& y) ^^^ (x &&& z) ^^^ (y &&& z)

def bsig0 (x : Nat) : Nat := rotr 2 x ^^^ rotr 13 x ^^^ rotr 22 x

def bsig1 (x : Nat) : Nat := rotr 6 x ^^^ rotr 11 x ^^^ rotr 25 x

def ssig0 (x : Nat) : Nat := rotr 7 x ^^^ rotr 18 x ^^^ (x >>> 3)

def ssig1 (x : Nat) : Nat := rotr 17 x ^^^ rotr 19 x ^^^ (x >>> 10)

/-- The 64 SHA-256 round constants of FIPS 180-4 (the fractional parts of
the cube roots of the first 64 primes), written in decimal. -/
def K : List Nat :=
  [1116352408, 1899447441, 3049323471, 3921009573, 961987163,
   1508970993, 2453635748, 2870763221, 3624381080, 310598401,
   607225278, 1426881987, 1925078388, 2162078206, 2614888103,
   3248222580, 3835390401, 4022224774, 264347078, 604807628,
   770255983, 1249150122, 1555081692, 1996064986, 2554220882,
   2821834349, 2952996808, 3210313671, 3336571891, 3584528711,
   113926993, 338241895, 666307205, 773529912, 1294757372,
   1396182291, 1695183700, 1986661051, 2177026350, 2456956037,
   2730485921, 2820302411, 3259730800, 3345764771, 3516065817,
   3600352804, 4094571909, 275423344, 430227734, 506948616,
   659060556, 883997877, 958139571, 1322822218, 1537002063,
   1747873779, 1955562222, 2024104815, 2227730452, 2361852424,
   2428436474, 2756734187, 3204031479, 3329325298]

/-- The eight working variables of the compression function. -/
structure Hash8 where
  a : Nat
  b : Nat
  c : Nat
  d : Nat
  e : Nat
  f : Nat
  g : Nat
  h : Nat

/-- The initial hash state of FIPS 180-4 (fractional parts of the square
roots of the first eight primes), written in decimal. -/
def initH : Hash8 :=
  ⟨1779033703, 3144134277, 1013904242, 2773480762,
   1359893119, 2600822924, 528734635, 1541459225⟩

/-- One compression round with round constant k and schedule word w. -/
def roundStep (st : Hash8) (k w : Nat) : Hash8 :=
  let t1 := (st.h + bsig1 st.e + ch st.e st.f st.g + k + w) % 2 ^ 32
  let t2 := (bsig0 st.a + maj st.a st.b st.c) % 2 ^ 32
  ⟨(t1 + t2) % 2 ^ 32, st.a, st.b, st.c, add32 st.d t1, st.e, st.f, st.g⟩

/-- The 16 big-endian words of a 64-byte block. -/
def blockWords (block : List Nat) : List Nat :=
  (List.range 16).map fun i =>
    block.getD (4 * i) 0 * 2 ^ 24 + block.getD (4 * i + 1) 0 * 2 ^ 16 +
      block.getD (4 * i + 2) 0 * 2 ^ 8 + block.getD (4 * i + 3) 0

/-- Extend the message schedule by one word. -/
def scheduleStep (ws : List Nat) : List Nat :=
  ws ++ [(ssig1 (ws.getD (ws.length - 2) 0) + ws.getD (ws.length - 7) 0 +
    ssig0 (ws.getD (ws.length - 15) 0) + ws.getD (ws.length - 16) 0) % 2 ^ 32]

/-- The 64-word message schedule of one block. -/
def schedule (block : List Nat) : List Nat :=
  (List.range 48).foldl (fun ws _ => scheduleStep ws) (blockWords block)

/-- Compress one 64-byte block into the running hash state. -/
def compressBlock (st : Hash8) (block : List Nat) : Hash8 :=
  let t := (K.zip (schedule block)).foldl (fun s kw => roundStep s kw.1 kw.2) st
  ⟨add32 st.a t.a, add32 st.b t.b, add32 st.c t.c, add32 st.d t.d,
   add32 st.e t.e, add32 st.f t.f, add32 st.g t.g, add32 st.h t.h⟩

/-- Big-endian 8-byte encoding of the bit length. -/
def be64 (n : Nat) : List Nat := (digitsLE 256 8 n).reverse

/-- SHA-256 padding: 0x80, zero fill to 56 mod 64, then the 64-bit length. -/
def padMessage (msg : List Nat) : List Nat :=
  let padLen := (64 - (msg.length + 9) % 64) % 64
  msg ++ 0x80 :: (List.replicate padLen 0 ++ be64 (8 * msg.length))

/-- Split a byte list into 64-byte chunks. -/
def chunks64 : List Nat → List (List Nat)
  | [] => []
  | x :: xs => (x :: xs).take 64 :: chunks64 ((x :: xs).drop 64)
termination_by l => l.length
decreasing_by simp; omega

/-- The four big-endian bytes of a 32-bit word. -/
def wordBE4 (w : Nat) : List Nat :=
  [w / 2 ^ 24 % 256, w / 2 ^ 16 % 256, w / 2 ^ 8 % 256, w % 256]

/-- The SHA-256 digest of a byte string, as 32 bytes. -/
def sha256Bytes (msg : List Nat) : List Nat :=
  let fin := (chunks64 (padMessage msg)).foldl compressBlock initH
  ([fin.a, fin.b, fin.c, fin.d, fin.e, fin.f, fin.g, fin.h].map wordBE4).flatten

theorem sha256Bytes_length (msg : List Nat) : (sha256Bytes msg).length = 32 := by
  simp [sha256Bytes, wordBE4]

theorem sha256Bytes_lt (msg : List Nat) : ∀ b ∈ sha256Bytes msg, b < 256 := by
  intro b hb
  simp only [sha256Bytes, List.mem_flatten, List.mem_map] at hb
  obtain ⟨l, ⟨w, hw, rfl⟩, hbl⟩ := hb
  simp only [wordBE4, List.mem_cons, List.not_mem_nil, or_false] at hbl
  rcases hbl with rfl | rfl | rfl | rfl <;> exact Nat.mod_lt _ (by norm_num)

/-- HMAC-SHA256 (RFC 2104) over byte strings, as computed by Python's
hmac.new(key, msg, hashlib.sha256). -/
def hmacSha256 (key msg : List Nat) : List Nat :=
  let k0 := if 64 < key.length then sha256Bytes key else key
  let kp := k0 ++ List.replicate (64 - k0.length) 0
  sha256Bytes (kp.map (fun b => b ^^^ 0x5c) ++
    sha256Bytes (kp.map (fun b => b ^^^ 0x36) ++ msg))

theorem hmacSha256_length (key msg : List Nat) : (hmacSha256 key msg).length = 32 := by
  rw [hmacSha256]
  exact sha256Bytes_length _

theorem hmacSha256_lt (key msg : List Nat) : ∀ b ∈ hmacSha256 key msg, b < 256 := by
  rw [hmacSha256]
  exact sha256Bytes_lt _

/-- Lowercase hex rendering of a byte string (hexdigest). -/
def bytesToHex (bs : List Nat) : List Char :=
  (bs.map (fun b => [hexDigitChar (b / 16), hexDigitChar (b % 16)])).flatten

/-- UTF-8 bytes of a string (str.encode). -/
def strBytes (s : String) : List Nat := s.toUTF8.toList.map (fun b => b.toNat)

end Sha256

namespace WebhookSigner

open Sha256

/-- WebhookSigner.sign (signer.py lines 13-37): HMAC-SHA256 over
timestamp + "." + payload with the prefixed lowercase hexdigest,
returning (signature, timestamp). The timestamp is always passed
explicitly here; the source merely defaults it to time.time(). -/
def sign (payload secret : String) (timestamp : Int) : String × Int :=
  let message := toString timestamp ++ "." ++ payload
  ("sha256=" ++ String.mk (bytesToHex (hmacSha256 (strBytes secret) (strBytes message))),
    timestamp)

/-- WebhookSigner.verify (signer.py lines 39-59): recompute and compare.
hmac.compare_digest is equality (its constant-time nature has no
functional content). -/
def verify (payload secret : String) (timestamp : Int) (signature : String) : Bool :=
  (sign payload secret timestamp).1 == signature

end WebhookSigner

theorem string_replicate_inj (n1 n2 : Nat)
    (h : String.mk (List.replicate n1 'a') = String.mk (List.replicate n2 'a')) :
    n1 = n2 := by
  have hdata : List.replicate n1 'a' = List.replicate n2 'a' := congrArg String.data h
  have := congrArg List.length hdata
  simpa using this

/-- C6 counterexample: the injectivity clause of the claim (changing the
secret always changes the signature value) is false: infinitely many
secrets map into the finite space of 32-byte HMAC digests, so two distinct
secrets share a signature for the concrete payload "p" and timestamp 0.
No explicit collision is computable, but its existence refutes the
universal statement. -/
theorem c6_counterexample :
    ¬ (∀ s1 s2 : String, s1 ≠ s2 →
        (WebhookSigner.sign "p" s1 0).1 ≠ (WebhookSigner.sign "p" s2 0).1) := by
  intro hinj
  have hbound : ∀ n : Nat,
      valMS 256 (Sha256.hmacSha256 (Sha256.strBytes (String.mk (List.replicate n 'a')))
        (Sha256.strBytes (toString (0 : Int) ++ "." ++ "p"))) < 256 ^ 32 := by
    intro n
    have hlen := Sha256.hmacSha256_length
      (Sha256.strBytes (String.mk (List.replicate n 'a')))
      (Sha256.strBytes (toString (0 : Int) ++ "." ++ "p"))
    have hlt := Sha256.hmacSha256_lt
      (Sha256.strBytes (String.mk (List.replicate n 'a')))
      (Sha256.strBytes (toString (0 : Int) ++ "." ++ "p"))
    have := valMS_lt 256 (by norm_num) _ hlt
    rwa [hlen] at this
  have hpigeon := Finite.exists_ne_map_eq_of_infinite
    (fun n : Nat => (⟨_, hbound n⟩ : Fin (256 ^ 32)))
  obtain ⟨n1, n2, hne, heq⟩ := hpigeon
  have hval : valMS 256 (Sha256.hmacSha256
        (Sha256.strBytes (String.mk (List.replicate n1 'a')))
        (Sha256.strBytes (toString (0 : Int) ++ "." ++ "p")))
      = valMS 256 (Sha256.hmacSha256
        (Sha256.strBytes (String.mk (List.replicate n2 'a')))
        (Sha256.strBytes (toString (0 : Int) ++ "." ++ "p"))) :=
    congrArg Fin.val heq
  have hdig : Sha256.hmacSha256
        (Sha256.strBytes (String.mk (List.replicate n1 'a')))
        (Sha256.strBytes (toString (0 : Int) ++ "." ++ "p"))
      = Sha256.hmacSha256
        (Sha256.strBytes (String.mk (List.replicate n2 'a')))
        (Sha256.strBytes (toString (0 : Int) ++ "." ++ "p")) := by
    apply valMS_inj 256 (by norm_num)
    · rw [Sha256.hmacSha256_length, Sha256.hmacSha256_length]
    · exact Sha256.hmacSha256_lt _ _
    · exact Sha256.hmacSha256_lt _ _
    · exact hval
  have hsne : String.mk (List.replicate n1 'a') ≠ String.mk (List.replicate n2 'a') :=
    fun hcontra => hne (string_replicate_inj n1 n2 hcontra)
  apply hinj (String.mk (List.replicate n1 'a')) (String.mk (List.replicate n2 'a')) hsne
  show "sha256=" ++ String.mk (Sha256.bytesToHex _) = "sha256=" ++ String.mk (Sha256.bytesToHex _)
  rw [hdig]

/-- C6 amended: sign is the deterministic function
"sha256=" ++ hex(HMAC_SHA256(secret, timestamp ++ "." ++ payload));
verify recomputes it and returns True exactly when the supplied signature
equals that recomputation — in particular the signature produced by sign
on the same inputs verifies, and a changed payload, secret or timestamp,
or a wrong secret, is rejected exactly when the recomputed HMAC value
differs (collisions exist in principle but are cryptographically
negligible). -/
theorem c6_signature_scheme :
    (∀ (payload secret : String) (ts : Int),
        WebhookSigner.sign payload secret ts
          = ("sha256=" ++ String.mk (Sha256.bytesToHex
              (Sha256.hmacSha256 (Sha256.strBytes secret)
                (Sha256.strBytes (toString ts ++ "." ++ payload)))), ts))
    ∧ (∀ (payload secret : String) (ts : Int),
        WebhookSigner.verify payload secret ts (WebhookSigner.sign payload secret ts).1 = true)
    ∧ (∀ (payload secret : String) (ts : Int) (sig : String),
        WebhookSigner.verify payload secret ts sig = true
          ↔ (WebhookSigner.sign payload secret ts).1 = sig) := by
  refine ⟨fun payload secret ts => rfl, fun payload secret ts => ?_, fun payload secret ts sig => ?_⟩
  · simp [WebhookSigner.verify]
  · simp [WebhookSigner.verify, beq_iff_eq]

/-- WebhookEndpoint (config.py lines 21-34). -/
structure WebhookEndpoint where
  id : String
  url : String
  secret : String
  events : List String
  enabled : Bool := true
  description : String := ""
deriving DecidableEq

/-- WebhookEndpoint.subscribes_to (config.py lines 32-34). -/
def WebhookEndpoint.subscribes_to (ep : WebhookEndpoint) (event_type : String) : Bool :=
  ep.events.contains event_type

/-- WebhookSettings (config.py lines 37-44), with the documented defaults. -/
structure WebhookSettings where
  max_retries : Nat := 5
  retry_base_delay_seconds : Nat := 2
  delivery_timeout_seconds : Nat := 30
  log_retention_days : Nat := 30
deriving DecidableEq

/-- WebhookConfig (config.py lines 47-52). -/
structure WebhookConfig where
  endpoints : List WebhookEndpoint := []
  settings : WebhookSettings := {}
deriving DecidableEq

/-- One raw endpoint mapping from the YAML endpoints list, with Python's
dict.get semantics: absent keys are none (for strings) or the documented
default. A present-but-empty string behaves like an absent one under
Python truthiness, which parseEndpoint checks with "if not x". -/
structure RawEndpoint where
  id : Option String := none
  url : Option String := none
  secret : Option String := none
  events : List String := []
  enabled : Bool := true
  description : String := ""
deriving DecidableEq

/-- The raw settings mapping (absent keys fall back to defaults). -/
structure RawSettings where
  max_retries : Option Nat := none
  retry_base_delay_seconds : Option Nat := none
  delivery_timeout_seconds : Option Nat := none
  log_retention_days : Option Nat := none
deriving DecidableEq

/-- The parsed YAML document. -/
structure RawConfig where
  endpoints : List RawEndpoint := []
  settings : RawSettings := {}
deriving DecidableEq

/-- The three states of the configuration source that load() distinguishes:
file absent, yaml.safe_load raising YAMLError, or a parsed document. -/
inductive YamlSource where
  | missing : YamlSource
  | parseError (msg : String) : YamlSource
  | parsed (raw : RawConfig) : YamlSource

/-- Whether a character matches the regex class backslash-w (modelled for
the ASCII range; the secrets in this repository use ASCII names). -/
def isWordChar (c : Char) : Bool := c.isAlphanum || c = '_'

/-- Prefix test on strings via their character lists. -/
def strStartsWith (s pre : String) : Bool := pre.data.isPrefixOf s.data

/-- Python str.lower, per character. -/
def strLower (s : String) : String := String.mk (s.data.map Char.toLower)

/-- Python str.strip() with no arguments: whitespace off both ends. -/
def strTrim (s : String) : String :=
  String.mk (((s.data.dropWhile Char.isWhitespace).reverse.dropWhile Char.isWhitespace).reverse)

/-- MODEL OF re.match on the anchored pattern dollar-brace-word-brace used
by _resolve_secret: the captured variable name, or none. -/
def matchVar (s : String) : Option String :=
  let cs := s.data
  if cs.take 2 = ['$', Char.ofNat 123] ∧ cs.getLast? = some (Char.ofNat 125) then
    let inner := (cs.drop 2).dropLast
    if inner ≠ [] ∧ inner.all isWordChar then some (String.mk inner) else none
  else
    none

/-- WebhookConfigLoader._resolve_secret (config.py lines 170-199): a
non-reference value is returned literally (with a logged warning); a
reference is resolved against the Docker-secrets file store first (the
files argument gives the content of /run/secrets/name when that file
exists), then a non-empty environment variable; otherwise unresolved.
Returns (secret_value, is_docker_secret). -/
def resolveSecret (files env : String → Option String) (secret_ref : String) :
    Option String × Bool :=
  match matchVar secret_ref with
  | none => (some secret_ref, false)
  | some var_name =>
    match files (strLower var_name) with
    | some txt => (some (strTrim txt), true)
    | none =>
      match env var_name with
      | some ev => if ev = "" then (none, false) else (some ev, false)
      | none => (none, false)

/-- WebhookConfigLoader._parse_endpoint (config.py lines 129-168): each
raise ValueError in the source is none here (load catches it and skips
the endpoint). -/
def parseEndpoint (files env : String → Option String) (d : RawEndpoint) :
    Option WebhookEndpoint :=
  let endpoint_id := d.id.getD ""
  let url := d.url.getD ""
  let secret_ref := d.secret.getD ""
  if endpoint_id = "" then none
  else if url = "" then none
  else if secret_ref = "" then none
  else if d.events = [] then none
  else if strStartsWith url "https://" then
    match (resolveSecret files env secret_ref).1 with
    | none => none
    | some secret => if secret = "" then none
      else some { id := endpoint_id, url := url, secret := secret,
                  events := d.events, enabled := d.enabled,
                  description := d.description }
  else none

namespace WebhookConfigLoader

/-- WebhookConfigLoader.load (config.py lines 60-108): a missing file
yields an empty config; a YAMLError is caught, logged, and also yields an
empty config which replaces the stored one; a parsed document is
validated endpoint by endpoint, dropping the failures, and the settings
take their documented defaults. -/
def load (files env : String → Option String) (src : YamlSource) : WebhookConfig :=
  match src with
  | .missing => {}
  | .parseError _ => {}
  | .parsed raw =>
      { endpoints := raw.endpoints.filterMap (parseEndpoint files env)
        settings :=
          { max_retries := raw.settings.max_retries.getD 5
            retry_base_delay_seconds := raw.settings.retry_base_delay_seconds.getD 2
            delivery_timeout_seconds := raw.settings.delivery_timeout_seconds.getD 30
            log_retention_days := raw.settings.log_retention_days.getD 30 } }

/-- WebhookConfigLoader.reload (config.py lines 110-113) is load() again:
the pair is (returned config, new stored config). The prior stored config
is ignored entirely. -/
def reload (files env : String → Option String) (src : YamlSource)
    (prior : Option WebhookConfig) : WebhookConfig × Option WebhookConfig :=
  (load files env src, some (load files env src))

/-- WebhookConfigLoader.get_endpoints_for_event (config.py lines 122-126). -/
def getEndpointsForEvent (cfg : WebhookConfig) (event_type : String) :
    List WebhookEndpoint :=
  cfg.endpoints.filter (fun ep => ep.enabled && ep.subscribes_to event_type)

end WebhookConfigLoader

/-- A loaded prior configuration with one live endpoint, for exercising
reload behavior. -/
def priorExample : WebhookConfig :=
  { endpoints := [{ id := "ep1", url := "https://example.com/hook",
                    secret := "s3cr3t", events := ["user.created"] }] }

/-- C1 counterexample: with a previously loaded non-empty config, a reload
whose source exists but fails YAML parsing does NOT leave the previous
config in place — the stored config becomes the empty WebhookConfig
(all endpoints gone) and the empty config, not an error, is returned to
the caller. -/
theorem c1_counterexample :
    (WebhookConfigLoader.reload (fun _ => none) (fun _ => none)
        (.parseError "mapping values are not allowed here") (some priorExample)).2
      ≠ some priorExample
    ∧ (WebhookConfigLoader.reload (fun _ => none) (fun _ => none)
        (.parseError "mapping values are not allowed here") (some priorExample)).1.endpoints
      = [] := by
  constructor
  · decide
  · rfl

/-- C1 amended: a load whose source exists but fails structured-data
parsing is caught inside load(): the parse error is logged and swallowed,
and the stored configuration is REPLACED by an empty WebhookConfig
(webhooks disabled) which reload() returns to its caller; the previously
loaded config is not preserved and no error reaches the caller. -/
theorem c1_reload_parse_error_replaces_config :
    ∀ (files env : String → Option String) (msg : String)
      (prior : Option WebhookConfig),
      WebhookConfigLoader.reload files env (.parseError msg) prior
        = ({ endpoints := [], settings := {} },
           some { endpoints := [], settings := {} }) :=
  fun _ _ _ _ => rfl

/-- C7: an endpoint entry with a non-HTTPS URL, a missing or unresolvable
secret, or an empty events list is absent from the loaded config (its
parse is none, and the loaded endpoint list is exactly the parses that
succeeded), while every entry that does parse still loads: per-endpoint
fail-soft, never failing the whole load. -/
theorem c7_per_endpoint_validation :
    ∀ (files env : String → Option String) (raw : RawConfig) (d : RawEndpoint),
      (WebhookConfigLoader.load files env (.parsed raw)).endpoints
          = raw.endpoints.filterMap (parseEndpoint files env)
      ∧ ((strStartsWith (d.url.getD "") "https://" = false
            ∨ d.secret.getD "" = ""
            ∨ (resolveSecret files env (d.secret.getD "")).1 = none
            ∨ (resolveSecret files env (d.secret.getD "")).1 = some ""
            ∨ d.events = []) → parseEndpoint files env d = none)
      ∧ (∀ ep : WebhookEndpoint, parseEndpoint files env d = some ep →
            d ∈ raw.endpoints →
            ep ∈ (WebhookConfigLoader.load files env (.parsed raw)).endpoints) := by
  intro files env raw d
  refine ⟨rfl, ?_, ?_⟩
  · intro h
    simp only [parseEndpoint]
    split_ifs with h1 h2 h3 h4 h5
    · rfl
    · rfl
    · rfl
    · rfl
    · rcases h with h | h | h | h | h
      · rw [h] at h5; exact absurd h5 (by simp)
      · exact absurd h h3
      · simp [h]
      · simp [h]
      · exact absurd h h4
    · rfl
  · intro ep hparse hmem
    exact List.mem_filterMap.mpr ⟨d, hmem, hparse⟩

theorem c7_per_endpoint_validation_witness :
    parseEndpoint (fun _ => none) (fun _ => none)
        { id := some "bad", url := some "http://insecure.example.com/h",
          secret := some "tok", events := ["user.created"] } = none
    ∧ ({ id := "good", url := "https://ok.example.com/h", secret := "tok",
          events := ["user.created"] } : WebhookEndpoint)
        ∈ (WebhookConfigLoader.load (fun _ => none) (fun _ => none)
            (.parsed { endpoints :=
              [{ id := some "bad", url := some "http://insecure.example.com/h",
                 secret := some "tok", events := ["user.created"] },
               { id := some "good", url := some "https://ok.example.com/h",
                 secret := some "tok", events := ["user.created"] }] })).endpoints :=
  ⟨(c7_per_endpoint_validation (fun _ => none) (fun _ => none)
      { endpoints :=
        [{ id := some "bad", url := some "http://insecure.example.com/h",
           secret := some "tok", events := ["user.created"] },
         { id := some "good", url := some "https://ok.example.com/h",
           secret := some "tok", events := ["user.created"] }] }
      { id := some "bad", url := some "http://insecure.example.com/h",
        secret := some "tok", events := ["user.created"] }).2.1
      (Or.inl (by decide)),
   (c7_per_endpoint_validation (fun _ => none) (fun _ => none)
      { endpoints :=
        [{ id := some "bad", url := some "http://insecure.example.com/h",
           secret := some "tok", events := ["user.created"] },
         { id := some "good", url := some "https://ok.example.com/h",
           secret := some "tok", events := ["user.created"] }] }
      { id := some "good", url := some "https://ok.example.com/h",
        secret := some "tok", events := ["user.created"] }).2.2
      { id := "good", url := "https://ok.example.com/h", secret := "tok",
        events := ["user.created"] }
      (by decide) (by decide)⟩

/-- C8: get_endpoints_for_event returns exactly the endpoints that are
enabled and whose events list contains the event type, as a sublist of
the loaded endpoint list (so in source order); disabled endpoints are
excluded even when otherwise matching. -/
theorem c8_get_endpoints_for_event :
    ∀ (cfg : WebhookConfig) (event_type : String),
      (WebhookConfigLoader.getEndpointsForEvent cfg event_type).Sublist cfg.endpoints
      ∧ ∀ ep : WebhookEndpoint,
          ep ∈ WebhookConfigLoader.getEndpointsForEvent cfg event_type
            ↔ ep ∈ cfg.endpoints ∧ ep.enabled = true ∧ event_type ∈ ep.events := by
  intro cfg et
  refine ⟨List.filter_sublist _, fun ep => ?_⟩
  simp [WebhookConfigLoader.getEndpointsForEvent, List.mem_filter,
    WebhookEndpoint.subscribes_to, List.elem_iff, and_assoc]

/-- Outcome of one emit call: the returned value plus the externally
visible effects — whether the endpoint lookup ran, how many queue pushes
were attempted, and which payloads were actually enqueued. -/
structure EmitOutcome where
  retval : Option WebhookEvent
  lookedUp : Bool
  pushAttempts : Nat
  queued : List EventPayload

namespace WebhookEmitter

/-- WebhookEmitter.emit (emitter.py lines 29-71). testing is the
TESTING == "1" environment check of _is_testing (lines 21-23); pushErr is
the outcome of the client.rpush call, some message when it raises (the
except branch logs and returns None); freshId and now stand for the
uuid4() and datetime.now(UTC) drawn when the event is created. -/
def emit (testing : Bool) (cfg : WebhookConfig) (pushErr : Option String)
    (event_type : String) (data : JsonVal) (freshId : Nat) (now : PyDateTime) :
    EmitOutcome :=
  if testing then
    { retval := none, lookedUp := false, pushAttempts := 0, queued := [] }
  else
    let endpoints := WebhookConfigLoader.getEndpointsForEvent cfg event_type
    if endpoints.isEmpty then
      { retval := none, lookedUp := true, pushAttempts := 0, queued := [] }
    else
      let event : WebhookEvent :=
        { event_type := event_type, data := data, event_id := freshId, timestamp := now }
      match pushErr with
      | some _ =>
          { retval := none, lookedUp := true, pushAttempts := 1, queued := [] }
      | none =>
          { retval := some event, lookedUp := true, pushAttempts := 1,
            queued := [event.toPayload] }

end WebhookEmitter

/-- C10: when the TESTING environment variable equals "1", emit returns
None with no queue push and no endpoint lookup, regardless of the
configuration, the push outcome, or the event — the unconditional
short-circuit at the top of emit. -/
theorem c10_testing_short_circuit :
    ∀ (cfg : WebhookConfig) (pushErr : Option String) (event_type : String)
      (data : JsonVal) (freshId : Nat) (now : PyDateTime),
      WebhookEmitter.emit true cfg pushErr event_type data freshId now
        = { retval := none, lookedUp := false, pushAttempts := 0, queued := [] } :=
  fun _ _ _ _ _ _ => rfl

/-- C9: emit always hands its caller either the created event or None,
never an exception: its result is one of those two values in every case,
and whenever the queue push raises, the failure is absorbed and the
return value is None. -/
theorem c9_emit_never_raises :
    ∀ (testing : Bool) (cfg : WebhookConfig) (pushErr : Option String)
      (event_type : String) (data : JsonVal) (freshId : Nat) (now : PyDateTime),
      ((WebhookEmitter.emit testing cfg pushErr event_type data freshId now).retval = none
        ∨ (WebhookEmitter.emit testing cfg pushErr event_type data freshId now).retval
            = some { event_type := event_type, data := data, event_id := freshId,
                     timestamp := now })
      ∧ ∀ msg : String,
          (WebhookEmitter.emit testing cfg (some msg) event_type data freshId now).retval
            = none := by
  intro testing cfg pushErr et data fid now
  constructor
  · simp only [WebhookEmitter.emit]
    split_ifs with h1 h2
    · exact Or.inl rfl
    · exact Or.inl rfl
    · cases pushErr with
      | some m => exact Or.inl rfl
      | none => exact Or.inr rfl
  · intro msg
    simp only [WebhookEmitter.emit]
    split_ifs with h1 h2
    · rfl
    · rfl
    · rfl

/-- C2 counterexample: with TESTING = "1" in the environment and a
configuration holding an enabled endpoint subscribed to user.created,
emit returns None and performs no queue push even though an enabled
endpoint subscribes — refuting the claimed equivalence at this concrete
input. -/
theorem c2_counterexample :
    (WebhookEmitter.emit true priorExample none "user.created" JsonVal.nullV 0
        ⟨2024, 1, 1, 0, 0, 0, 0⟩).retval = none
    ∧ (WebhookEmitter.emit true priorExample none "user.created" JsonVal.nullV 0
        ⟨2024, 1, 1, 0, 0, 0, 0⟩).pushAttempts = 0
    ∧ (WebhookEmitter.emit true priorExample none "user.created" JsonVal.nullV 0
        ⟨2024, 1, 1, 0, 0, 0, 0⟩).queued = []
    ∧ WebhookConfigLoader.getEndpointsForEvent priorExample "user.created" ≠ [] :=
  ⟨rfl, rfl, rfl, by decide⟩

/-- C2 amended: outside the test environment (TESTING not "1"), emit
returns None with no push attempt iff no enabled endpoint subscribes to
the event type; otherwise exactly one push is attempted, and emit returns
the created event with its payload enqueued when the push succeeds, or
None with nothing enqueued when the push raises. -/
theorem c2_subscription_gating :
    ∀ (cfg : WebhookConfig) (pushErr : Option String) (event_type : String)
      (data : JsonVal) (freshId : Nat) (now : PyDateTime),
      (((WebhookEmitter.emit false cfg pushErr event_type data freshId now).retval = none
          ∧ (WebhookEmitter.emit false cfg pushErr event_type data freshId now).pushAttempts
              = 0)
        ↔ WebhookConfigLoader.getEndpointsForEvent cfg event_type = [])
      ∧ (WebhookConfigLoader.getEndpointsForEvent cfg event_type ≠ [] →
          (WebhookEmitter.emit false cfg pushErr event_type data freshId now).pushAttempts = 1
          ∧ (pushErr = none →
              (WebhookEmitter.emit false cfg pushErr event_type data freshId now).retval
                  = some { event_type := event_type, data := data, event_id := freshId,
                           timestamp := now }
              ∧ (WebhookEmitter.emit false cfg pushErr event_type data freshId now).queued
                  = [WebhookEvent.toPayload
                      { event_type := event_type, data := data, event_id := freshId,
                        timestamp := now }])
          ∧ (∀ msg : String, pushErr = some msg →
              (WebhookEmitter.emit false cfg pushErr event_type data freshId now).retval = none
              ∧ (WebhookEmitter.emit false cfg pushErr event_type data freshId now).queued
                  = [])) := by
  intro cfg pushErr et data fid now
  cases hlist : WebhookConfigLoader.getEndpointsForEvent cfg et with
  | nil =>
    constructor
    · simp [WebhookEmitter.emit, hlist]
    · intro hne; exact absurd rfl hne
  | cons e es =>
    cases pushErr with
    | none =>
      constructor
      · simp [WebhookEmitter.emit, hlist]
      · intro hne
        exact ⟨by simp [WebhookEmitter.emit, hlist],
          fun _ => ⟨by simp [WebhookEmitter.emit, hlist],
            by simp [WebhookEmitter.emit, hlist]⟩,
          fun msg hmsg => absurd hmsg (by simp)⟩
    | some m =>
      constructor
      · simp [WebhookEmitter.emit, hlist]
      · intro hne
        exact ⟨by simp [WebhookEmitter.emit, hlist],
          fun h => absurd h (by simp),
          fun msg hmsg => ⟨by simp [WebhookEmitter.emit, hlist],
            by simp [WebhookEmitter.emit, hlist]⟩⟩

theorem c2_subscription_gating_witness :
    WebhookConfigLoader.getEndpointsForEvent priorExample "user.created" ≠ []
    ∧ (WebhookEmitter.emit false priorExample none "user.created" JsonVal.nullV 0
        ⟨2024, 1, 1, 0, 0, 0, 0⟩).pushAttempts = 1 :=
  ⟨by decide,
   ((c2_subscription_gating priorExample none "user.created" JsonVal.nullV 0
      ⟨2024, 1, 1, 0, 0, 0, 0⟩).2 (by decide)).1⟩

/-- Python string slicing s[:n]. -/
def strTake (s : String) (n : Nat) : String := String.mk (s.data.take n)

namespace WebhookWorker

/-- The transport-level outcome of one HTTP POST attempt: a response with
status code and body text, an httpx.TimeoutException, or an
httpx.RequestError rendering to a message. -/
inductive AttemptOutcome where
  | response (status : Nat) (bodyText : String) : AttemptOutcome
  | timeout : AttemptOutcome
  | connError (msg : String) : AttemptOutcome

/-- DeliveryResult (worker.py lines 29-37). -/
structure DeliveryResult where
  success : Bool
  http_status : Option Nat := none
  error_message : Option String := none
  latency_ms : Option Nat := none
  attempt_count : Nat := 1
deriving DecidableEq

/-- WebhookWorker._attempt_delivery (worker.py lines 176-231) as a function
of the transport outcome and the measured latency: a 2xx response is
success; any other response is a failure carrying the status and the
first 500 characters of a non-empty body; a timeout or connection error
carries no status and no latency, only a (truncated) message. -/
def attemptDelivery (o : AttemptOutcome) (latency : Nat) : DeliveryResult :=
  match o with
  | .response s body =>
      if 200 ≤ s ∧ s < 300 then
        { success := true, http_status := some s, latency_ms := some latency }
      else
        { success := false, http_status := some s,
          error_message := if body = "" then none else some (strTake body 500),
          latency_ms := some latency }
  | .timeout => { success := false, error_message := some "Request timeout" }
  | .connError msg => { success := false, error_message := some (strTake msg 500) }

/-- The client-error test of the retry loop (worker.py line 155):
http_status is truthy and within [400, 500). -/
def is4xxStatus (h : Option Nat) : Bool :=
  match h with
  | some s => decide (400 ≤ s) && decide (s < 500)
  | none => false

/-- The retry loop of _deliver_to_endpoint (worker.py lines 115-173),
at 0-based attempt number attempt with rem retries still allowed
(initially max_retries); returns the final DeliveryResult and the list
of backoff sleeps performed, in order. Before retry number attempt + 1
the loop sleeps base * 2 ^ attempt seconds. -/
def deliverGo (outcomes : Nat → AttemptOutcome) (lat : Nat → Nat) (base : Nat) :
    Nat → Nat → DeliveryResult × List Nat
  | attempt, rem =>
    let r := { attemptDelivery (outcomes attempt) (lat attempt) with
               attempt_count := attempt + 1 }
    if r.success then (r, [])
    else if is4xxStatus r.http_status then (r, [])
    else match rem with
      | 0 => (r, [])
      | rem' + 1 =>
          let nxt := deliverGo outcomes lat base (attempt + 1) rem'
          (nxt.1, base * 2 ^ attempt :: nxt.2)

/-- WebhookWorker._deliver_to_endpoint (worker.py lines 115-173): attempt
1 fires immediately; at most max_retries + 1 attempts in total. -/
def deliverToEndpoint (outcomes : Nat → AttemptOutcome) (lat : Nat → Nat)
    (maxRetries base : Nat) : DeliveryResult × List Nat :=
  deliverGo outcomes lat base 0 maxRetries

/-- WebhookDelivery row (models.py lines 24-84), the fields the worker
writes. -/
structure WebhookDelivery where
  event_id : Nat
  event_type : String
  endpoint_id : String
  endpoint_url : String
  status : String
  http_status : Option Nat
  error_message : Option String
  attempt_count : Nat
  latency_ms : Option Nat

/-- WebhookWorker._log_delivery (worker.py lines 233-267): one row per
completed attempt sequence; status is DeliveryStatus.SUCCESS.value or
DeliveryStatus.FAILED.value by result.success. -/
def logDelivery (e : WebhookEvent) (ep : WebhookEndpoint) (r : DeliveryResult) :
    WebhookDelivery :=
  { event_id := e.event_id, event_type := e.event_type, endpoint_id := ep.id,
    endpoint_url := ep.url,
    status := if r.success then "success" else "failed",
    http_status := r.http_status, error_message := r.error_message,
    attempt_count := r.attempt_count, latency_ms := r.latency_ms }

/-- The final result of the retry loop is the result of some attempt k in
the window, with attempt_count k + 1. -/
theorem deliverGo_shape (outcomes : Nat → AttemptOutcome) (lat : Nat → Nat)
    (base : Nat) :
    ∀ (rem attempt : Nat), ∃ k, attempt ≤ k ∧ k ≤ attempt + rem ∧
      (deliverGo outcomes lat base attempt rem).1
        = { attemptDelivery (outcomes k) (lat k) with attempt_count := k + 1 } := by
  intro rem
  induction rem with
  | zero =>
    intro attempt
    refine ⟨attempt, le_refl _, by omega, ?_⟩
    simp only [deliverGo]
    split_ifs <;> rfl
  | succ rem' ih =>
    intro attempt
    by_cases hs : ({ attemptDelivery (outcomes attempt) (lat attempt) with
        attempt_count := attempt + 1 } : DeliveryResult).success = true
    · refine ⟨attempt, le_refl _, by omega, ?_⟩
      simp only [deliverGo]
      rw [if_pos hs]
    · by_cases h4 : is4xxStatus ({ attemptDelivery (outcomes attempt) (lat attempt) with
          attempt_count := attempt + 1 } : DeliveryResult).http_status = true
      · refine ⟨attempt, le_refl _, by omega, ?_⟩
        simp only [deliverGo]
        rw [if_neg hs, if_pos h4]
      · obtain ⟨k, hk1, hk2, hres⟩ := ih (attempt + 1)
        refine ⟨k, by omega, by omega, ?_⟩
        simp only [deliverGo]
        rw [if_neg hs, if_neg h4]
        exact hres

theorem deliverGo_step_success (outcomes : Nat → AttemptOutcome) (lat : Nat → Nat)
    (base attempt rem : Nat)
    (hs : (attemptDelivery (outcomes attempt) (lat attempt)).success = true) :
    deliverGo outcomes lat base attempt rem
      = ({ attemptDelivery (outcomes attempt) (lat attempt) with
           attempt_count := attempt + 1 }, []) := by
  cases rem with
  | zero =>
    conv_lhs => rw [deliverGo]
    rw [if_pos (by simpa using hs)]
  | succ rem' =>
    conv_lhs => rw [deliverGo]
    rw [if_pos (by simpa using hs)]

theorem deliverGo_step_4xx (outcomes : Nat → AttemptOutcome) (lat : Nat → Nat)
    (base attempt rem : Nat)
    (hs : (attemptDelivery (outcomes attempt) (lat attempt)).success = false)
    (h4 : is4xxStatus (attemptDelivery (outcomes attempt) (lat attempt)).http_status = true) :
    deliverGo outcomes lat base attempt rem
      = ({ attemptDelivery (outcomes attempt) (lat attempt) with
           attempt_count := attempt + 1 }, []) := by
  cases rem with
  | zero =>
    conv_lhs => rw [deliverGo]
    rw [if_neg (by simp [hs]), if_pos (by simpa using h4)]
  | succ rem' =>
    conv_lhs => rw [deliverGo]
    rw [if_neg (by simp [hs]), if_pos (by simpa using h4)]

theorem deliverGo_step_retry (outcomes : Nat → AttemptOutcome) (lat : Nat → Nat)
    (base attempt rem' : Nat)
    (hs : (attemptDelivery (outcomes attempt) (lat attempt)).success = false)
    (h4 : is4xxStatus (attemptDelivery (outcomes attempt) (lat attempt)).http_status = false) :
    deliverGo outcomes lat base attempt (rem' + 1)
      = ((deliverGo outcomes lat base (attempt + 1) rem').1,
         base * 2 ^ attempt :: (deliverGo outcomes lat base (attempt + 1) rem').2) := by
  conv_lhs => rw [deliverGo]
  rw [if_neg (by simp [hs]), if_neg (by simp [h4])]

theorem deliverGo_step_exhausted (outcomes : Nat → AttemptOutcome) (lat : Nat → Nat)
    (base attempt : Nat)
    (hs : (attemptDelivery (outcomes attempt) (lat attempt)).success = false)
    (h4 : is4xxStatus (attemptDelivery (outcomes attempt) (lat attempt)).http_status = false) :
    deliverGo outcomes lat base attempt 0
      = ({ attemptDelivery (outcomes attempt) (lat attempt) with
           attempt_count := attempt + 1 }, []) := by
  conv_lhs => rw [deliverGo]
  rw [if_neg (by simp [hs]), if_neg (by simp [h4])]

/-- The backoff sleeps of a delivery run are exactly base * 2 ^ i for the
successive retries: the j-th recorded sleep (0-based, j ranging over the
attempts after the first) is base * 2 ^ (attempt + j). -/
theorem deliverGo_delays (outcomes : Nat → AttemptOutcome) (lat : Nat → Nat)
    (base : Nat) :
    ∀ (rem attempt : Nat),
      (deliverGo outcomes lat base attempt rem).2
        = (List.range
            ((deliverGo outcomes lat base attempt rem).1.attempt_count - (attempt + 1))).map
            (fun i => base * 2 ^ (attempt + i)) := by
  intro rem
  induction rem with
  | zero =>
    intro attempt
    by_cases hs : (attemptDelivery (outcomes attempt) (lat attempt)).success = true
    · rw [deliverGo_step_success outcomes lat base attempt 0 hs]
      simp
    · have hs' : (attemptDelivery (outcomes attempt) (lat attempt)).success = false := by
        simpa using hs
      by_cases h4 : is4xxStatus (attemptDelivery (outcomes attempt) (lat attempt)).http_status
          = true
      · rw [deliverGo_step_4xx outcomes lat base attempt 0 hs' h4]
        simp
      · have h4' : is4xxStatus (attemptDelivery (outcomes attempt) (lat attempt)).http_status
            = false := by simpa using h4
        rw [deliverGo_step_exhausted outcomes lat base attempt hs' h4']
        simp
  | succ rem' ih =>
    intro attempt
    by_cases hs : (attemptDelivery (outcomes attempt) (lat attempt)).success = true
    · rw [deliverGo_step_success outcomes lat base attempt (rem' + 1) hs]
      simp
    · have hs' : (attemptDelivery (outcomes attempt) (lat attempt)).success = false := by
        simpa using hs
      by_cases h4 : is4xxStatus (attemptDelivery (outcomes attempt) (lat attempt)).http_status
          = true
      · rw [deliverGo_step_4xx outcomes lat base attempt (rem' + 1) hs' h4]
        simp
      · have h4' : is4xxStatus (attemptDelivery (outcomes attempt) (lat attempt)).http_status
            = false := by simpa using h4
        rw [deliverGo_step_retry outcomes lat base attempt rem' hs' h4']
        obtain ⟨k, hk1, hk2, hres⟩ := deliverGo_shape outcomes lat base rem' (attempt + 1)
        have hcnt : (deliverGo outcomes lat base (attempt + 1) rem').1.attempt_count
            = k + 1 := by rw [hres]
        rw [ih (attempt + 1), hcnt]
        have hm : k + 1 - (attempt + 1) = (k - (attempt + 1)) + 1 := by omega
        have hm2 : k + 1 - (attempt + 1 + 1) = k - (attempt + 1) := by omega
        rw [hm, hm2, List.range_succ_eq_map, List.map_cons, List.map_map]
        show base * 2 ^ attempt ::
            List.map (fun i => base * 2 ^ (attempt + 1 + i)) (List.range (k - (attempt + 1)))
          = base * 2 ^ (attempt + 0) ::
            List.map ((fun i => base * 2 ^ (attempt + i)) ∘ Nat.succ)
              (List.range (k - (attempt + 1)))
        congr 1
        apply List.map_congr_left
        intro i hi
        simp only [Function.comp_apply]
        have hexp : attempt + 1 + i = attempt + Nat.succ i := by omega
        rw [hexp]

/-- When every attempt fails retryably, the loop runs all of its
attempts: attempt_count reaches attempt + rem + 1 and the result is a
failure. -/
theorem deliverGo_exhaust (outcomes : Nat → AttemptOutcome) (lat : Nat → Nat)
    (base : Nat)
    (hfail : ∀ k, (attemptDelivery (outcomes k) (lat k)).success = false)
    (h4 : ∀ k, is4xxStatus (attemptDelivery (outcomes k) (lat k)).http_status = false) :
    ∀ (rem attempt : Nat),
      (deliverGo outcomes lat base attempt rem).1.success = false
      ∧ (deliverGo outcomes lat base attempt rem).1.attempt_count = attempt + rem + 1 := by
  intro rem
  induction rem with
  | zero =>
    intro attempt
    rw [deliverGo_step_exhausted outcomes lat base attempt (hfail attempt) (h4 attempt)]
    exact ⟨hfail attempt, rfl⟩
  | succ rem' ih =>
    intro attempt
    rw [deliverGo_step_retry outcomes lat base attempt rem' (hfail attempt) (h4 attempt)]
    obtain ⟨h1, h2⟩ := ih (attempt + 1)
    refine ⟨h1, ?_⟩
    show (deliverGo outcomes lat base (attempt + 1) rem').1.attempt_count
        = attempt + (rem' + 1) + 1
    omega

theorem attemptDelivery_non2xx (s : Nat) (b : String) (l : Nat)
    (hns : ¬(200 ≤ s ∧ s < 300)) :
    (attemptDelivery (.response s b) l).success = false
    ∧ (attemptDelivery (.response s b) l).http_status = some s := by
  simp [attemptDelivery, hns]

theorem attemptDelivery_2xx (s : Nat) (b : String) (l : Nat) (h2 : 200 ≤ s ∧ s < 300) :
    (attemptDelivery (.response s b) l).success = true := by
  simp [attemptDelivery, h2]

/-- C3: attempt 1 fires immediately (no sleep precedes it); the recorded
backoff sleeps are exactly base * 2 ^ i for i = 0 .. attempts - 2; at
most max_retries + 1 attempts are made; a first-attempt response in
[400, 500) terminates the run failed with attempt_count 1 and no sleeps;
when every attempt fails retryably the run ends failed after exactly
max_retries + 1 attempts; outcomes 500, 500, 200 yield success with
attempt_count 3 after sleeps base and 2 * base; and the loop obeys the
claimed policy at EVERY point of EVERY run — a success stops it, a
response in [400, 500) at any attempt stops it failed with no further
retries regardless of remaining budget, a retryable failure with budget
remaining sleeps base * 2 ^ attempt and continues with the next attempt,
and a retryable failure with no budget left stops it failed. -/
theorem c3_delivery_retry_policy :
    ∀ (outcomes : Nat → AttemptOutcome) (lat : Nat → Nat) (maxRetries base : Nat),
      ((deliverToEndpoint outcomes lat maxRetries base).2
          = (List.range
              ((deliverToEndpoint outcomes lat maxRetries base).1.attempt_count - 1)).map
              (fun i => base * 2 ^ i))
      ∧ (deliverToEndpoint outcomes lat maxRetries base).1.attempt_count ≤ maxRetries + 1
      ∧ (∀ s body, 400 ≤ s → s < 500 → outcomes 0 = .response s body →
          (deliverToEndpoint outcomes lat maxRetries base).1.success = false
          ∧ (deliverToEndpoint outcomes lat maxRetries base).1.attempt_count = 1
          ∧ (deliverToEndpoint outcomes lat maxRetries base).2 = [])
      ∧ ((∀ k, (attemptDelivery (outcomes k) (lat k)).success = false
            ∧ is4xxStatus (attemptDelivery (outcomes k) (lat k)).http_status = false) →
          (deliverToEndpoint outcomes lat maxRetries base).1.success = false
          ∧ (deliverToEndpoint outcomes lat maxRetries base).1.attempt_count
              = maxRetries + 1)
      ∧ (2 ≤ maxRetries →
          ∀ b0 b1 b2, outcomes 0 = .response 500 b0 → outcomes 1 = .response 500 b1 →
            outcomes 2 = .response 200 b2 →
          (deliverToEndpoint outcomes lat maxRetries base).1.success = true
          ∧ (deliverToEndpoint outcomes lat maxRetries base).1.attempt_count = 3
          ∧ (deliverToEndpoint outcomes lat maxRetries base).2 = [base, base * 2])
      ∧ (∀ attempt rem,
          (attemptDelivery (outcomes attempt) (lat attempt)).success = true →
          deliverGo outcomes lat base attempt rem
            = ({ attemptDelivery (outcomes attempt) (lat attempt) with
                 attempt_count := attempt + 1 }, []))
      ∧ (∀ attempt rem s body, outcomes attempt = .response s body →
          400 ≤ s → s < 500 →
          deliverGo outcomes lat base attempt rem
            = ({ attemptDelivery (outcomes attempt) (lat attempt) with
                 attempt_count := attempt + 1 }, [])
          ∧ (deliverGo outcomes lat base attempt rem).1.success = false)
      ∧ (∀ attempt rem',
          (attemptDelivery (outcomes attempt) (lat attempt)).success = false →
          is4xxStatus (attemptDelivery (outcomes attempt) (lat attempt)).http_status
              = false →
          deliverGo outcomes lat base attempt (rem' + 1)
            = ((deliverGo outcomes lat base (attempt + 1) rem').1,
               base * 2 ^ attempt :: (deliverGo outcomes lat base (attempt + 1) rem').2))
      ∧ (∀ attempt,
          (attemptDelivery (outcomes attempt) (lat attempt)).success = false →
          is4xxStatus (attemptDelivery (outcomes attempt) (lat attempt)).http_status
              = false →
          deliverGo outcomes lat base attempt 0
            = ({ attemptDelivery (outcomes attempt) (lat attempt) with
                 attempt_count := attempt + 1 }, [])) := by
  intro outcomes lat maxRetries base
  refine ⟨?_, ?_, ?_, ?_, ?_, ?_, ?_, ?_, ?_⟩
  · rw [deliverToEndpoint, deliverGo_delays outcomes lat base maxRetries 0]
    apply List.map_congr_left
    intro i hi
    rw [Nat.zero_add]
  · obtain ⟨k, hk1, hk2, hres⟩ := deliverGo_shape outcomes lat base maxRetries 0
    rw [deliverToEndpoint, hres]
    show k + 1 ≤ maxRetries + 1
    omega
  · intro s body h400 h500 h0
    have hns : ¬(200 ≤ s ∧ s < 300) := by omega
    have hs0 : (attemptDelivery (outcomes 0) (lat 0)).success = false := by
      rw [h0]; exact (attemptDelivery_non2xx s body (lat 0) hns).1
    have hst0 : (attemptDelivery (outcomes 0) (lat 0)).http_status = some s := by
      rw [h0]; exact (attemptDelivery_non2xx s body (lat 0) hns).2
    have h40 : is4xxStatus (attemptDelivery (outcomes 0) (lat 0)).http_status = true := by
      rw [hst0]
      simp only [is4xxStatus, Bool.and_eq_true, decide_eq_true_eq]
      omega
    rw [deliverToEndpoint, deliverGo_step_4xx outcomes lat base 0 maxRetries hs0 h40]
    exact ⟨hs0, rfl, rfl⟩
  · intro hall
    have h := deliverGo_exhaust outcomes lat base (fun k => (hall k).1) (fun k => (hall k).2)
      maxRetries 0
    rw [deliverToEndpoint]
    exact ⟨h.1, by omega⟩
  · intro hge b0 b1 b2 h0 h1 h2
    obtain ⟨m, rfl⟩ : ∃ m, maxRetries = m + 2 := ⟨maxRetries - 2, by omega⟩
    have hns : ¬(200 ≤ 500 ∧ 500 < 300) := by omega
    have hs0 : (attemptDelivery (outcomes 0) (lat 0)).success = false := by
      rw [h0]; exact (attemptDelivery_non2xx 500 b0 (lat 0) hns).1
    have hst0 : (attemptDelivery (outcomes 0) (lat 0)).http_status = some 500 := by
      rw [h0]; exact (attemptDelivery_non2xx 500 b0 (lat 0) hns).2
    have h40 : is4xxStatus (attemptDelivery (outcomes 0) (lat 0)).http_status = false := by
      rw [hst0]; decide
    have hs1 : (attemptDelivery (outcomes 1) (lat 1)).success = false := by
      rw [h1]; exact (attemptDelivery_non2xx 500 b1 (lat 1) hns).1
    have hst1 : (attemptDelivery (outcomes 1) (lat 1)).http_status = some 500 := by
      rw [h1]; exact (attemptDelivery_non2xx 500 b1 (lat 1) hns).2
    have h41 : is4xxStatus (attemptDelivery (outcomes 1) (lat 1)).http_status = false := by
      rw [hst1]; decide
    have hs2 : (attemptDelivery (outcomes 2) (lat 2)).success = true := by
      rw [h2]; exact attemptDelivery_2xx 200 b2 (lat 2) (by omega)
    rw [deliverToEndpoint, deliverGo_step_retry outcomes lat base 0 (m + 1) hs0 h40,
      deliverGo_step_retry outcomes lat base 1 m hs1 h41,
      deliverGo_step_success outcomes lat base 2 m hs2]
    refine ⟨hs2, rfl, ?_⟩
    norm_num
  · intro attempt rem hs
    exact deliverGo_step_success outcomes lat base attempt rem hs
  · intro attempt rem s body h0 h400 h500
    have hns : ¬(200 ≤ s ∧ s < 300) := by omega
    have hs : (attemptDelivery (outcomes attempt) (lat attempt)).success = false := by
      rw [h0]; exact (attemptDelivery_non2xx s body (lat attempt) hns).1
    have hst : (attemptDelivery (outcomes attempt) (lat attempt)).http_status = some s := by
      rw [h0]; exact (attemptDelivery_non2xx s body (lat attempt) hns).2
    have h4 : is4xxStatus (attemptDelivery (outcomes attempt) (lat attempt)).http_status
        = true := by
      rw [hst]
      simp only [is4xxStatus, Bool.and_eq_true, decide_eq_true_eq]
      omega
    have heq := deliverGo_step_4xx outcomes lat base attempt rem hs h4
    refine ⟨heq, ?_⟩
    rw [heq]
    exact hs
  · intro attempt rem' hs h4
    exact deliverGo_step_retry outcomes lat base attempt rem' hs h4
  · intro attempt hs h4
    exact deliverGo_step_exhausted outcomes lat base attempt hs h4

theorem c3_delivery_retry_policy_witness :
    (2 : Nat) ≤ 5
    ∧ (deliverToEndpoint
        (fun k => if k = 0 then .response 500 "" else
          if k = 1 then .response 500 "" else .response 200 "ok")
        (fun _ => 7) 5 2).1.success = true
    ∧ (deliverToEndpoint
        (fun k => if k = 0 then .response 500 "" else
          if k = 1 then .response 500 "" else .response 200 "ok")
        (fun _ => 7) 5 2).1.attempt_count = 3
    ∧ (deliverToEndpoint
        (fun k => if k = 0 then .response 500 "" else
          if k = 1 then .response 500 "" else .response 200 "ok")
        (fun _ => 7) 5 2).2 = [2, 2 * 2]
    ∧ deliverGo
        (fun k => if k = 0 then .response 500 "" else .response 404 "nope")
        (fun _ => 7) 2 1 4
        = ({ attemptDelivery (.response 404 "nope") 7 with attempt_count := 2 }, [])
    ∧ (deliverGo
        (fun k => if k = 0 then .response 500 "" else .response 404 "nope")
        (fun _ => 7) 2 1 4).1.success = false :=
  ⟨by norm_num,
    ((c3_delivery_retry_policy
      (fun k => if k = 0 then .response 500 "" else
        if k = 1 then .response 500 "" else .response 200 "ok")
      (fun _ => 7) 5 2).2.2.2.2.1 (by norm_num) "" "" "ok" rfl rfl rfl).1,
    ((c3_delivery_retry_policy
      (fun k => if k = 0 then .response 500 "" else
        if k = 1 then .response 500 "" else .response 200 "ok")
      (fun _ => 7) 5 2).2.2.2.2.1 (by norm_num) "" "" "ok" rfl rfl rfl).2.1,
    ((c3_delivery_retry_policy
      (fun k => if k = 0 then .response 500 "" else
        if k = 1 then .response 500 "" else .response 200 "ok")
      (fun _ => 7) 5 2).2.2.2.2.1 (by norm_num) "" "" "ok" rfl rfl rfl).2.2,
    ((c3_delivery_retry_policy
      (fun k => if k = 0 then .response 500 "" else .response 404 "nope")
      (fun _ => 7) 5 2).2.2.2.2.2.2.1 1 4 404 "nope" rfl (by norm_num) (by norm_num)).1,
    ((c3_delivery_retry_policy
      (fun k => if k = 0 then .response 500 "" else .response 404 "nope")
      (fun _ => 7) 5 2).2.2.2.2.2.2.1 1 4 404 "nope" rfl (by norm_num) (by norm_num)).2⟩

theorem attemptDelivery_classification (o : AttemptOutcome) (l : Nat) :
    ((attemptDelivery o l).success = true
      ↔ ∃ s, (attemptDelivery o l).http_status = some s ∧ 200 ≤ s ∧ s < 300)
    ∧ ((attemptDelivery o l).success = false →
        (∃ s, (attemptDelivery o l).http_status = some s ∧ (s < 200 ∨ 300 ≤ s))
        ∨ ((attemptDelivery o l).http_status = none
            ∧ ∃ m, (attemptDelivery o l).error_message = some m)) := by
  cases o with
  | response s body =>
    by_cases h2 : 200 ≤ s ∧ s < 300
    · refine ⟨⟨fun _ => ⟨s, ?_, h2.1, h2.2⟩, fun _ => ?_⟩, fun hfalse => ?_⟩
      · simp [attemptDelivery, h2]
      · simp [attemptDelivery, h2]
      · rw [attemptDelivery_2xx s body l h2] at hfalse
        exact absurd hfalse (by simp)
    · refine ⟨⟨fun htrue => ?_, fun hex => ?_⟩, fun _ => Or.inl ⟨s, ?_, ?_⟩⟩
      · rw [(attemptDelivery_non2xx s body l h2).1] at htrue
        exact absurd htrue (by simp)
      · obtain ⟨s', hs', hlo, hhi⟩ := hex
        rw [(attemptDelivery_non2xx s body l h2).2] at hs'
        have : s = s' := by simpa using hs'
        subst this
        exact absurd ⟨hlo, hhi⟩ h2
      · exact (attemptDelivery_non2xx s body l h2).2
      · omega
  | timeout =>
    refine ⟨⟨fun h => ?_, fun hex => ?_⟩,
      fun _ => Or.inr ⟨rfl, "Request timeout", rfl⟩⟩
    · simp [attemptDelivery] at h
    · obtain ⟨s, hs, _, _⟩ := hex
      simp [attemptDelivery] at hs
  | connError m =>
    refine ⟨⟨fun h => ?_, fun hex => ?_⟩,
      fun _ => Or.inr ⟨rfl, strTake m 500, rfl⟩⟩
    · simp [attemptDelivery] at h
    · obtain ⟨s, hs, _, _⟩ := hex
      simp [attemptDelivery] at hs

/-- C4: the recorded status is success iff the final HTTP status is in
[200, 300); every logged row has status success or failed; and a failed
row has either a status outside that range or a null status together
with an error message. -/
theorem c4_success_classification :
    ∀ (outcomes : Nat → AttemptOutcome) (lat : Nat → Nat) (maxRetries base : Nat)
      (e : WebhookEvent) (ep : WebhookEndpoint),
      ((logDelivery e ep (deliverToEndpoint outcomes lat maxRetries base).1).status
          = "success"
        ↔ ∃ s, (logDelivery e ep
              (deliverToEndpoint outcomes lat maxRetries base).1).http_status = some s
            ∧ 200 ≤ s ∧ s < 300)
      ∧ ((logDelivery e ep (deliverToEndpoint outcomes lat maxRetries base).1).status
            = "success"
          ∨ (logDelivery e ep (deliverToEndpoint outcomes lat maxRetries base).1).status
            = "failed")
      ∧ ((logDelivery e ep (deliverToEndpoint outcomes lat maxRetries base).1).status
            = "failed" →
          (∃ s, (logDelivery e ep
                (deliverToEndpoint outcomes lat maxRetries base).1).http_status = some s
              ∧ (s < 200 ∨ 300 ≤ s))
          ∨ ((logDelivery e ep
                (deliverToEndpoint outcomes lat maxRetries base).1).http_status = none
              ∧ ∃ m, (logDelivery e ep
                  (deliverToEndpoint outcomes lat maxRetries base).1).error_message
                  = some m)) := by
  intro outcomes lat maxRetries base e ep
  obtain ⟨k, hk1, hk2, hres⟩ := deliverGo_shape outcomes lat base maxRetries 0
  rw [deliverToEndpoint, hres]
  obtain ⟨hiff, himp⟩ := attemptDelivery_classification (outcomes k) (lat k)
  cases hsucc : (attemptDelivery (outcomes k) (lat k)).success with
  | true =>
    have hst : (logDelivery e ep
        { attemptDelivery (outcomes k) (lat k) with attempt_count := k + 1 }).status
        = "success" := by
      simp [logDelivery, hsucc]
    refine ⟨⟨fun _ => hiff.mp hsucc, fun _ => hst⟩, Or.inl hst, fun hbad => ?_⟩
    rw [hst] at hbad
    exact absurd hbad (by decide)
  | false =>
    have hst : (logDelivery e ep
        { attemptDelivery (outcomes k) (lat k) with attempt_count := k + 1 }).status
        = "failed" := by
      simp [logDelivery, hsucc]
    refine ⟨⟨fun hcontra => ?_, fun hex => ?_⟩, Or.inr hst, fun _ => himp hsucc⟩
    · rw [hst] at hcontra
      exact absurd hcontra (by decide)
    · have := hiff.mpr hex
      rw [hsucc] at this
      exact absurd this (by simp)

theorem c4_success_classification_witness :
    (∃ s, (logDelivery ⟨"user.created", JsonVal.nullV, 0, ⟨2024, 1, 1, 0, 0, 0, 0⟩⟩
          { id := "ep1", url := "https://example.com/hook", secret := "s",
            events := ["user.created"] }
          (deliverToEndpoint (fun _ => .timeout) (fun _ => 0) 0 2).1).http_status
        = some s ∧ (s < 200 ∨ 300 ≤ s))
    ∨ ((logDelivery ⟨"user.created", JsonVal.nullV, 0, ⟨2024, 1, 1, 0, 0, 0, 0⟩⟩
          { id := "ep1", url := "https://example.com/hook", secret := "s",
            events := ["user.created"] }
          (deliverToEndpoint (fun _ => .timeout) (fun _ => 0) 0 2).1).http_status = none
        ∧ ∃ m, (logDelivery ⟨"user.created", JsonVal.nullV, 0, ⟨2024, 1, 1, 0, 0, 0, 0⟩⟩
            { id := "ep1", url := "https://example.com/hook", secret := "s",
              events := ["user.created"] }
            (deliverToEndpoint (fun _ => .timeout) (fun _ => 0) 0 2).1).error_message
            = some m) :=
  (c4_success_classification (fun _ => .timeout) (fun _ => 0) 0 2
      ⟨"user.created", JsonVal.nullV, 0, ⟨2024, 1, 1, 0, 0, 0, 0⟩⟩
      { id := "ep1", url := "https://example.com/hook", secret := "s",
        events := ["user.created"] }).2.2 rfl

end WebhookWorker

end WebhookSpec
